import Mathlib

set_option maxHeartbeats 1000000

/-
Verification of the InkWave staging pipeline against its specification.
The Python sources (data_extraction.py, oracle_connection.py,
data_analysis.py) are shallowly embedded below: pure computations become
Lean functions, database effects become explicit event traces, and
exceptions become Except values.  Numeric cell values are modelled as
integers; pandas NaN / None cells are modelled as Value.null.
-/

namespace InkWave

/-- A cell value of a record batch.  Numeric values are modelled as
integers, text cells as strings, and pandas missing values (NaN or None)
as null. -/
inductive Value where
  | num (n : Int)
  | str (s : String)
  | null
deriving Repr, DecidableEq

/-- Model of pd.to_numeric on a single string cell, restricted to
(optionally negated) integer literals: any other string fails to coerce. -/
def parseNumStr (s : String) : Option Int :=
  if s.startsWith "-" then (String.toNat? (s.drop 1)).map (fun n => -(n : Int))
  else (String.toNat? s).map (fun n => (n : Int))

/-- Model of pd.to_numeric(values, errors=coerce) on one cell: numbers pass
through, nulls stay NaN (none), strings must parse as numbers.  Line 220 of
data_extraction.py keeps exactly the cells for which this is none. -/
def coerceNum : Value → Option Int
  | Value.num n => some n
  | Value.str s => parseNumStr s
  | Value.null => none

/-- True on numeric and null cells; used to describe columns that contain
only numbers and missing values. -/
def isNumOrNull : Value → Bool
  | Value.num _ => true
  | Value.null => true
  | Value.str _ => false

/-- A record batch (a pandas DataFrame): an ordered column list and the
rows, each row aligned with the column list. -/
structure DataFrame where
  columns : List String
  rows : List (List Value)
deriving Repr

/-- The values of one column, in row order (df[col]); empty when the
column is absent. -/
def DataFrame.colVals (df : DataFrame) (c : String) : List Value :=
  match df.columns.findIdx? (fun x => x == c) with
  | some i => df.rows.map (fun r => r.getD i Value.null)
  | none => []

/-- Pandas comparison (value < bound): false on NaN, only numbers compare. -/
def ltNum (v : Value) (bound : Int) : Bool :=
  match v with
  | Value.num n => n < bound
  | _ => false

/-- Pandas comparison (value > bound): false on NaN, only numbers compare. -/
def gtNum (v : Value) (bound : Int) : Bool :=
  match v with
  | Value.num n => bound < n
  | _ => false

/-- One entry of DATA_QUALITY_RULES for a single source.  A rule section
absent from the Python dict is the empty list here (iterating nothing). -/
structure RuleSet where
  required_columns : List String := []
  numeric_columns : List String := []
  positive_columns : List String := []
  range_checks : List (String × Int × Int) := []
  categorical_checks : List (String × List Value) := []
deriving Repr

/-- The dictionary returned by CSVExtractor.validate_data_quality
(data_extraction.py lines 202-208 and 256-257). -/
structure ValidationResults where
  source : String
  total_rows : Nat
  warnings : List String
  errors : List String
  issues : List String
deriving Repr, DecidableEq

/-- Number of cells of a column that pd.to_numeric(errors=coerce) maps to
NaN (data_extraction.py line 220).  Note that original nulls are NaN after
coercion and are therefore counted. -/
def nonNumericCount (df : DataFrame) (col : String) : Nat :=
  ((df.colVals col).filter (fun v => (coerceNum v).isNone)).length

/-- Numeric-column check for one rule column (lines 217-224): a single
warning per column when any cell fails coercion; skipped when the column is
absent from the frame. -/
def numericMsg (df : DataFrame) (col : String) : Option String :=
  if col ∈ df.columns then
    let n := nonNumericCount df col
    if 0 < n then some (col ++ ": " ++ toString n ++ " non-numeric values")
    else none
  else none

/-- Positive-column check for one rule column (lines 227-234): a single
error per column counting cells strictly below zero. -/
def positiveMsg (df : DataFrame) (col : String) : Option String :=
  if col ∈ df.columns then
    let n := ((df.colVals col).filter (fun v => ltNum v 0)).length
    if 0 < n then some (col ++ ": " ++ toString n ++ " negative values (should be positive)")
    else none
  else none

/-- Range check for one rule entry (lines 237-244): a single warning per
column counting cells outside the closed interval. -/
def rangeMsg (df : DataFrame) (rc : String × Int × Int) : Option String :=
  if rc.1 ∈ df.columns then
    let n := ((df.colVals rc.1).filter (fun v => ltNum v rc.2.1 || gtNum v rc.2.2)).length
    if 0 < n then
      some (rc.1 ++ ": " ++ toString n ++ " values out of range [" ++
        toString rc.2.1 ++ ", " ++ toString rc.2.2 ++ "]")
    else none
  else none

/-- Categorical check for one rule entry (lines 247-254): a single error
per column counting cells not in the allowed set. -/
def categoricalMsg (df : DataFrame) (cc : String × List Value) : Option String :=
  if cc.1 ∈ df.columns then
    let n := ((df.colVals cc.1).filter (fun v => !(cc.2.contains v))).length
    if 0 < n then
      some (cc.1 ++ ": " ++ toString n ++ " invalid values (expected: " ++ reprStr cc.2 ++ ")")
    else none
  else none

/-- The four per-column checks of validate_data_quality, in source order:
the warnings list (numeric then range) and the errors list (positive then
categorical). -/
def applyRules (df : DataFrame) (rs : RuleSet) : List String × List String :=
  (rs.numeric_columns.filterMap (numericMsg df) ++ rs.range_checks.filterMap (rangeMsg df),
   rs.positive_columns.filterMap (positiveMsg df) ++ rs.categorical_checks.filterMap (categoricalMsg df))

/-- CSVExtractor.validate_data_quality (data_extraction.py lines 189-260):
an unknown source name yields the empty report; otherwise the four checks
run and issues is warnings plus errors. -/
def validate_data_quality (rules : List (String × RuleSet)) (df : DataFrame)
    (source_name : String) : ValidationResults :=
  match List.lookup source_name rules with
  | none =>
      { source := source_name, total_rows := df.rows.length,
        warnings := [], errors := [], issues := [] }
  | some rs =>
      let wa := (applyRules df rs).1
      let er := (applyRules df rs).2
      { source := source_name, total_rows := df.rows.length,
        warnings := wa, errors := er, issues := wa ++ er }

/-- A rule set with every per-column check restricted to the given column
list; required_columns is untouched (validate_data_quality never reads it). -/
def RuleSet.restrict (rs : RuleSet) (cols : List String) : RuleSet :=
  { rs with
    numeric_columns := rs.numeric_columns.filter (fun c => decide (c ∈ cols)),
    positive_columns := rs.positive_columns.filter (fun c => decide (c ∈ cols)),
    range_checks := rs.range_checks.filter (fun rc => decide (rc.1 ∈ cols)),
    categorical_checks := rs.categorical_checks.filter (fun cc => decide (cc.1 ∈ cols)) }

/-- The required-column set difference of extract_raw_daily line 44:
set(required_columns) - set(df.columns), kept in required order. -/
def missingColumns (required present : List String) : List String :=
  required.filter (fun c => decide (c ∉ present))

/-- The required-column gate of extract_raw_daily lines 43-48 (identical in
extract_raw_sales lines 80-85): extraction raises ValueError carrying the
missing set when it is nonempty, otherwise the frame passes through. -/
def extractRequiredCheck (required : List String) (df : DataFrame) :
    Except (List String) DataFrame :=
  let missing := missingColumns required df.columns
  if missing = [] then Except.ok df else Except.error missing

/-- An observable operation issued on a pooled database connection. -/
inductive DbEvent where
  | acquire
  | insert (row : List Value)
  | commit
  | rollback
  | release
deriving Repr, DecidableEq

/-- How a batch load can terminate abnormally: session acquisition raised,
or the insert of the given 1-based row raised. -/
inductive BatchError where
  | acquireFailed
  | rowFailed (i : Nat)
deriving Repr, DecidableEq

/-- The row loop of OracleConnectionPool.execute_batch (lines 198-209): for
each 1-based row i, execute the insert (the oracle fa says whether it
raises), increment total, commit when i is a multiple of the interval; an
unconditional final commit follows the loop; a raising row triggers the
rollback of lines 211-214 and the error propagates.  Returns the events
issued on the connection and the returned total (or the failure). -/
def batchLoop (K : Nat) (fa : Nat → Bool) :
    List (List Value) → Nat → Nat → List DbEvent × Except BatchError Nat
  | [], _i, total => ([DbEvent.commit], Except.ok total)
  | row :: rest, i, total =>
    if fa i then ([DbEvent.rollback], Except.error (BatchError.rowFailed i))
    else
      let tail := batchLoop K fa rest (i + 1) (total + 1)
      let evs := if i % K = 0 then DbEvent.insert row :: DbEvent.commit :: tail.1
                 else DbEvent.insert row :: tail.1
      (evs, tail.2)

/-- OracleConnectionPool.execute_batch (lines 177-218) together with the
get_connection context manager it runs under (lines 87-112): a falsy
commit_interval falls back to the configured one (lines 190-191); the
scoped session commits once more on clean exit of the with-block (line
104), rolls back again on error (line 107), and always releases (line
112).  A failed acquisition (the demo pool is None) raises before any
event reaches a connection. -/
def execute_batch (acqOk : Bool) (cfgK K : Nat) (fa : Nat → Bool)
    (data : List (List Value)) : List DbEvent × Except BatchError Nat :=
  if acqOk then
    let Kr := if K = 0 then cfgK else K
    let r := batchLoop Kr fa data 1 0
    match r.2 with
    | Except.ok total =>
        (DbEvent.acquire :: r.1 ++ [DbEvent.commit, DbEvent.release], Except.ok total)
    | Except.error e =>
        (DbEvent.acquire :: r.1 ++ [DbEvent.rollback, DbEvent.release], Except.error e)
  else ([], Except.error BatchError.acquireFailed)

/-- The rows sent by insert statements in a trace, in order. -/
def insertedRows (tr : List DbEvent) : List (List Value) :=
  tr.filterMap (fun e => match e with | DbEvent.insert r => some r | _ => none)

/-- Number of commit operations in a trace. -/
def commitCount (tr : List DbEvent) : Nat :=
  tr.countP (fun e => match e with | DbEvent.commit => true | _ => false)

/-- Transactional store semantics of one event over the state (pending
uncommitted inserts, committed row count). -/
def applyEvent : Nat × Nat → DbEvent → Nat × Nat
  | (pending, committed), DbEvent.insert _ => (pending + 1, committed)
  | (pending, committed), DbEvent.commit => (0, committed + pending)
  | (_pending, committed), DbEvent.rollback => (0, committed)
  | s, DbEvent.acquire => s
  | s, DbEvent.release => s

/-- Rows durably committed in the store after a trace: inserts covered by a
later commit count, inserts in a rolled-back segment do not. -/
def committedCount (tr : List DbEvent) : Nat :=
  (tr.foldl applyEvent (0, 0)).2

/-- Expected number of interval commits: one for each index i, i+1, ...,
i+n-1 that is a multiple of K (the condition of line 203). -/
def intervalCommits (K i : Nat) : Nat → Nat
  | 0 => 0
  | n + 1 => (if i % K = 0 then 1 else 0) + intervalCommits K (i + 1) n

/-- The staging-target dispatch of stage_data (data_analysis.py lines
87-98): three recognized sources, anything else is skipped. -/
def tableFor : String → Option String
  | "raw_daily" => some "STG_RAW_DAILY"
  | "raw_sales" => some "STG_RAW_SALES"
  | "raw_meta" => some "STG_RAW_META"
  | _ => none

/-- stage_data (data_analysis.py lines 70-117): every source with a
recognized name is staged with pool.execute_batch over all of its rows; no
quality report is consulted; the first batch failure propagates.  acqOk
records whether the global pool owns a live session pool. -/
def stage_data (acqOk : Bool) (cfgK : Nat) (fa : String → Nat → Bool) :
    List (String × DataFrame) → List DbEvent × Except BatchError Unit
  | [] => ([], Except.ok ())
  | (name, df) :: rest =>
    match tableFor name with
    | none => stage_data acqOk cfgK fa rest
    | some _t =>
      let r := execute_batch acqOk cfgK cfgK (fa name) df.rows
      match r.2 with
      | Except.ok _n =>
          let tail := stage_data acqOk cfgK fa rest
          (r.1 ++ tail.1, tail.2)
      | Except.error e => (r.1, Except.error e)

/-- OracleConnectionPool.get_connection (lines 87-112) run over one unit of
work: acq is the outcome of pool.acquire, work is the events the unit of
work issues on the session and its outcome.  A failed acquisition skips
rollback and release (connection is None in both guards); otherwise a clean
exit commits before release and an error rolls back before release and
propagates. -/
def get_connection_run {α : Type} (acq : Except String Unit)
    (work : List DbEvent × Except String α) : List DbEvent × Except String α :=
  match acq with
  | Except.error e => ([], Except.error e)
  | Except.ok _ =>
    match work with
    | (evs, Except.ok a) =>
        (DbEvent.acquire :: evs ++ [DbEvent.commit, DbEvent.release], Except.ok a)
    | (evs, Except.error e) =>
        (DbEvent.acquire :: evs ++ [DbEvent.rollback, DbEvent.release], Except.error e)

/-- Result of one retried call: the returned value (none when the loop body
never ran), the number of fixed inter-attempt delays slept, and the number
of attempts made. -/
structure RetryOutcome (α : Type) where
  result : Option (Except String α)
  sleeps : Nat
  attempts : Nat
deriving Repr

/-- True exactly on the error case. -/
def isErr {ε α : Type} : Except ε α → Bool
  | Except.error _ => true
  | Except.ok _ => false

/-- The retry loop shared by execute_query (lines 127-147) and execute_dml
(lines 160-175): attempt is the current 0-based index, the second argument
the number of attempts still allowed.  A success returns at once; a failure
with another attempt left sleeps retry_delay once and retries; a failure on
the last attempt re-raises it unwrapped; with no attempts allowed the loop
body never runs and the function returns None. -/
def retryGo {α : Type} (f : Nat → Except String α) (attempt : Nat) :
    Nat → RetryOutcome α
  | 0 => ⟨none, 0, 0⟩
  | 1 =>
    match f attempt with
    | Except.ok r => ⟨some (Except.ok r), 0, 1⟩
    | Except.error e => ⟨some (Except.error e), 0, 1⟩
  | n + 2 =>
    match f attempt with
    | Except.ok r => ⟨some (Except.ok r), 0, 1⟩
    | Except.error _ =>
      let o := retryGo f (attempt + 1) (n + 1)
      ⟨o.result, o.sleeps + 1, o.attempts + 1⟩

/-- OracleConnectionPool.execute_query (lines 114-147): the attempt body
(scoped session, cursor execute, fetch) is the oracle f; retry_attempts
comes from ETL_CONFIG and range clamps it at zero. -/
def execute_query {α : Type} (f : Nat → Except String α) (R : Int) : RetryOutcome α :=
  retryGo f 0 R.toNat

/-- OracleConnectionPool.execute_dml (lines 149-175): identical retry
structure, the body returns the affected-row count. -/
def execute_dml (g : Nat → Except String Int) (R : Int) : RetryOutcome Int :=
  retryGo g 0 R.toNat

/-- What OracleConnectionPool.create_pool (lines 44-76) produces: the pool
field it sets, the boolean it returns, and the number of creation attempts
it made against the backend (outcome of the single cx_Oracle.SessionPool
call; there is no retry loop around it). -/
structure CreatePoolResult where
  pool : Option Unit
  success : Bool
  attempts : Nat
deriving Repr, DecidableEq

/-- OracleConnectionPool.create_pool (lines 44-76), live-driver path: one
SessionPool construction attempt; on failure the error is logged and False
is returned with self.pool still None. -/
def create_pool (outcome : Except String Unit) : CreatePoolResult :=
  match outcome with
  | Except.ok h => ⟨some h, true, 1⟩
  | Except.error _ => ⟨none, false, 1⟩

/-- The pool object, reduced to the only state the claims read: whether a
session pool was established. -/
structure OracleConnectionPool where
  pool : Option Unit
deriving Repr, DecidableEq

/-- get_connection_pool (oracle_connection.py lines 309-322): reuse the
singleton when present, else construct the pool and call create_pool,
ignoring its returned boolean, and hand the instance to the caller. -/
def get_connection_pool (existing : Option OracleConnectionPool)
    (outcome : Except String Unit) : OracleConnectionPool :=
  match existing with
  | some p => p
  | none => { pool := (create_pool outcome).pool }

/-- stage_data as invoked by main (data_analysis.py lines 76 and 106): the
pool comes from get_connection_pool and staging proceeds with whatever pool
state that returned. -/
def stage_with_global_pool (existing : Option OracleConnectionPool)
    (outcome : Except String Unit) (cfgK : Nat) (fa : String → Nat → Bool)
    (sources : List (String × DataFrame)) : List DbEvent × Except BatchError Unit :=
  let p := get_connection_pool existing outcome
  stage_data p.pool.isSome cfgK fa sources

/-- The always-succeeding row oracle: no insert raises. -/
def noFailF : Nat → Bool := fun _ => false

/-- Rule set of the C1 counterexample: quantity must be positive. -/
def exRules1 : List (String × RuleSet) :=
  [("raw_daily", { positive_columns := ["quantity"] })]

/-- Batch of the C1 counterexample: two rows, one negative quantity. -/
def exDF1 : DataFrame :=
  { columns := ["quantity"], rows := [[Value.num (-5)], [Value.num 3]] }

/-- Rule set of the C5 counterexample: required columns A and B. -/
def exRules5 : List (String × RuleSet) :=
  [("raw_daily", { required_columns := ["A", "B"] })]

/-- Batch of the C5 counterexample: columns A and C, so B is missing. -/
def exDF5 : DataFrame :=
  { columns := ["A", "C"], rows := [[Value.num 1, Value.num 2]] }

/-- Rule set of the C6 counterexample: price is declared numeric. -/
def exRules6 : List (String × RuleSet) :=
  [("raw_daily", { numeric_columns := ["price"] })]

/-- Batch of the C6 counterexample: a number and a null in the numeric
column, nothing else. -/
def exDF6 : DataFrame :=
  { columns := ["price"], rows := [[Value.num 3], [Value.null]] }

/-- Attempt oracle for the retry witnesses: fails once, then succeeds. -/
def wQueryOk : Nat → Except String (List (List Value)) :=
  fun i => if i = 0 then Except.error "timeout" else Except.ok [[Value.num 7]]

/-- DML attempt oracle for the retry witnesses: fails once, then succeeds. -/
def wDmlOk : Nat → Except String Int :=
  fun i => if i = 0 then Except.error "timeout" else Except.ok 4

/-- Attempt oracle that fails on every attempt, with distinct errors. -/
def wQueryBad : Nat → Except String (List (List Value)) :=
  fun i => Except.error ("down " ++ toString i)

/-- DML attempt oracle that fails on every attempt, with distinct errors. -/
def wDmlBad : Nat → Except String Int :=
  fun i => Except.error ("down " ++ toString i)

/-- Always-succeeding attempt oracle for the C10 witness. -/
def wQueryFine : Nat → Except String (List (List Value)) :=
  fun _ => Except.ok []

/-- Always-succeeding DML attempt oracle for the C10 witness. -/
def wDmlFine : Nat → Except String Int :=
  fun _ => Except.ok 1

/-- Filtering by a predicate under which the partial map is none does not
change a filterMap. -/
theorem filterMap_filter_none {α β : Type} (f : α → Option β) (p : α → Bool)
    (l : List α) (h : ∀ x, p x = false → f x = none) :
    (l.filter p).filterMap f = l.filterMap f := by
  induction l with
  | nil => rfl
  | cons x t ih =>
    cases hp : p x with
    | true => simp [List.filter_cons, hp, List.filterMap_cons, ih]
    | false => simp [List.filter_cons, hp, List.filterMap_cons, h x hp, ih]

/-- The failure-free batch loop returns the running total plus the number
of rows processed. -/
theorem batchLoop_snd (K : Nat) :
    ∀ (data : List (List Value)) (i tot : Nat),
      (batchLoop K noFailF data i tot).2 = Except.ok (tot + data.length) := by
  intro data
  induction data with
  | nil => intro i tot; simp [batchLoop]
  | cons row rest ih =>
    intro i tot
    simp only [batchLoop, noFailF, Bool.false_eq_true, if_false]
    rw [ih (i + 1) (tot + 1)]
    congr 1
    simp [List.length_cons]
    omega

/-- The failure-free batch loop sends exactly the given rows, in order. -/
theorem batchLoop_inserted (K : Nat) :
    ∀ (data : List (List Value)) (i tot : Nat),
      insertedRows (batchLoop K noFailF data i tot).1 = data := by
  intro data
  induction data with
  | nil => intro i tot; rfl
  | cons row rest ih =>
    intro i tot
    simp only [batchLoop, noFailF, Bool.false_eq_true, if_false]
    by_cases hc : i % K = 0
    · simp only [if_pos hc, insertedRows, List.filterMap_cons]
      have := ih (i + 1) (tot + 1)
      simp only [insertedRows] at this
      simp [this]
    · simp only [if_neg hc, insertedRows, List.filterMap_cons]
      have := ih (i + 1) (tot + 1)
      simp only [insertedRows] at this
      simp [this]

/-- Commit operations of the failure-free batch loop: one per interval
boundary hit, plus the unconditional final commit. -/
theorem batchLoop_commits (K : Nat) :
    ∀ (data : List (List Value)) (i tot : Nat),
      commitCount (batchLoop K noFailF data i tot).1 =
        intervalCommits K i data.length + 1 := by
  intro data
  induction data with
  | nil => intro i tot; rfl
  | cons row rest ih =>
    intro i tot
    have h := ih (i + 1) (tot + 1)
    simp only [commitCount] at h
    simp only [batchLoop, noFailF, Bool.false_eq_true, if_false, commitCount,
      List.length_cons, intervalCommits]
    by_cases hc : i % K = 0
    · simp [hc, List.countP_cons, h]
      omega
    · simp [hc, List.countP_cons, h]

/-- Store effect of the failure-free batch loop: every pending and every
inserted row ends up committed. -/
theorem batchLoop_foldl (K : Nat) :
    ∀ (data : List (List Value)) (i tot p c : Nat),
      (batchLoop K noFailF data i tot).1.foldl applyEvent (p, c) =
        (0, c + p + data.length) := by
  intro data
  induction data with
  | nil =>
    intro i tot p c
    simp [batchLoop, applyEvent]
  | cons row rest ih =>
    intro i tot p c
    simp only [batchLoop, noFailF, Bool.false_eq_true, if_false, List.length_cons]
    by_cases hc : i % K = 0
    · simp only [if_pos hc, List.foldl_cons, applyEvent]
      rw [ih (i + 1) (tot + 1) 0 (c + (p + 1))]
      simp only [Prod.mk.injEq, true_and]
      omega
    · simp only [if_neg hc, List.foldl_cons, applyEvent]
      rw [ih (i + 1) (tot + 1) (p + 1) c]
      simp only [Prod.mk.injEq, true_and]
      omega

/-- Appending one more index to the interval count adds its boundary test. -/
theorem intervalCommits_snoc (K : Nat) :
    ∀ (n i : Nat), intervalCommits K i (n + 1) =
      intervalCommits K i n + (if (i + n) % K = 0 then 1 else 0) := by
  intro n
  induction n with
  | zero => intro i; simp [intervalCommits]
  | succ m ih =>
    intro i
    rw [intervalCommits, ih (i + 1), intervalCommits]
    have hx : i + 1 + m = i + (m + 1) := by omega
    rw [hx]
    generalize (if i % K = 0 then 1 else 0) = b
    generalize (if (i + (m + 1)) % K = 0 then 1 else 0) = c
    omega

/-- Number of multiples of K among 1..n is n / K. -/
theorem intervalCommits_div (K : Nat) (hK : 1 ≤ K) :
    ∀ (n : Nat), intervalCommits K 1 n = n / K := by
  intro n
  induction n with
  | zero => simp [intervalCommits]
  | succ m ih =>
    rw [intervalCommits_snoc, ih, Nat.succ_div]
    have hiff : ((1 + m) % K = 0) ↔ (K ∣ (m + 1)) := by
      rw [Nat.add_comm 1 m]
      exact Nat.dvd_iff_mod_eq_zero.symm
    by_cases h : K ∣ (m + 1)
    · rw [if_pos h, if_pos (hiff.mpr h)]
    · rw [if_neg h, if_neg (fun hc => h (hiff.mp hc))]

/-- Failure-free execute_batch over a live session: the full connection
trace and the returned total, in one equation. -/
theorem execute_batch_noFail (cfgK K : Nat) (data : List (List Value)) (hK : 1 ≤ K) :
    execute_batch true cfgK K noFailF data =
      (DbEvent.acquire :: (batchLoop K noFailF data 1 0).1 ++
        [DbEvent.commit, DbEvent.release], Except.ok data.length) := by
  have hKz : ¬(K = 0) := by omega
  simp only [execute_batch, if_true, if_neg hKz]
  rw [batchLoop_snd K data 1 0]
  simp

/-- A failure-free batch load sends exactly the given rows, in order. -/
theorem execute_batch_inserted (cfgK K : Nat) (data : List (List Value)) (hK : 1 ≤ K) :
    insertedRows (execute_batch true cfgK K noFailF data).1 = data := by
  rw [execute_batch_noFail cfgK K data hK]
  have h := batchLoop_inserted K data 1 0
  simp only [insertedRows, List.filterMap_cons, List.filterMap_append] at h ⊢
  simp [h]

/-- A failure-free batch load leaves every row committed in the store. -/
theorem execute_batch_committed (cfgK K : Nat) (data : List (List Value)) (hK : 1 ≤ K) :
    committedCount (execute_batch true cfgK K noFailF data).1 = data.length := by
  rw [execute_batch_noFail cfgK K data hK]
  simp only [committedCount, List.foldl_cons, List.foldl_append]
  rw [show applyEvent (0, 0) DbEvent.acquire = (0, 0) from rfl]
  rw [batchLoop_foldl K data 1 0 0 0]
  simp [applyEvent]

/-- Staging a single recognized source with no row failures runs one
failure-free batch load and succeeds. -/
theorem stage_single_noFail (cfgK : Nat) (name t : String) (df : DataFrame)
    (ht : tableFor name = some t) (hK : 1 ≤ cfgK) :
    stage_data true cfgK (fun _ _ => false) [(name, df)] =
      ((execute_batch true cfgK cfgK noFailF df.rows).1, Except.ok ()) := by
  have hE2 := execute_batch_noFail cfgK cfgK df.rows hK
  have hE : execute_batch true cfgK cfgK (fun _ => false) df.rows =
      (DbEvent.acquire :: (batchLoop cfgK noFailF df.rows 1 0).1 ++
        [DbEvent.commit, DbEvent.release], Except.ok df.rows.length) := hE2
  simp only [stage_data, ht]
  rw [hE, hE2]
  simp [stage_data]

/-- The last-element helper for connection traces ending in release. -/
theorem getLast_wrap (evs : List DbEvent) (x : DbEvent) :
    (DbEvent.acquire :: evs ++ [x, DbEvent.release]).getLast? = some DbEvent.release := by
  have h : DbEvent.acquire :: evs ++ [x, DbEvent.release] =
      (DbEvent.acquire :: (evs ++ [x])) ++ [DbEvent.release] := by simp
  rw [h, List.getLast?_concat]

/-- Retry loop, success case: k initial failures inside the budget followed
by a success return the success, after exactly k sleeps and k+1 attempts. -/
theorem retryGo_success {α : Type} (f : Nat → Except String α) (r : α) :
    ∀ (k rem a : Nat), k < rem → (∀ i, i < k → isErr (f (a + i)) = true) →
      f (a + k) = Except.ok r → retryGo f a rem = ⟨some (Except.ok r), k, k + 1⟩ := by
  intro k
  induction k with
  | zero =>
    intro rem a hlt _ hok
    have hok2 : f a = Except.ok r := hok
    cases rem with
    | zero => omega
    | succ m =>
      cases m with
      | zero => simp [retryGo, hok2]
      | succ mm => simp [retryGo, hok2]
  | succ kk ih =>
    intro rem a hlt hpre hok
    cases rem with
    | zero => omega
    | succ m =>
      cases m with
      | zero => omega
      | succ mm =>
        have herr : isErr (f a) = true := by
          have h0 := hpre 0 (by omega)
          simpa using h0
        cases hfa : f a with
        | ok v => rw [hfa] at herr; simp [isErr] at herr
        | error e =>
          simp only [retryGo, hfa]
          have hpre2 : ∀ i, i < kk → isErr (f (a + 1 + i)) = true := by
            intro i hi
            have h2 := hpre (i + 1) (by omega)
            have h3 : a + (i + 1) = a + 1 + i := by omega
            rwa [h3] at h2
          have hok2 : f (a + 1 + kk) = Except.ok r := by
            have h3 : a + (kk + 1) = a + 1 + kk := by omega
            rwa [h3] at hok
          rw [ih (mm + 1) (a + 1) (by omega) hpre2 hok2]

/-- Retry loop, exhaustion case: failures on every allowed attempt return
the last failure unwrapped, after rem-1 sleeps and rem attempts. -/
theorem retryGo_allfail {α : Type} (f : Nat → Except String α) :
    ∀ (rem a : Nat), 1 ≤ rem → (∀ i, i < rem → isErr (f (a + i)) = true) →
      retryGo f a rem = ⟨some (f (a + (rem - 1))), rem - 1, rem⟩ := by
  intro rem
  induction rem with
  | zero => intro a h; omega
  | succ m ih =>
    intro a _ hpre
    have herr : isErr (f a) = true := by
      have h0 := hpre 0 (by omega)
      simpa using h0
    cases m with
    | zero =>
      cases hfa : f a with
      | ok v => rw [hfa] at herr; simp [isErr] at herr
      | error e => simp [retryGo, hfa]
    | succ mm =>
      cases hfa : f a with
      | ok v => rw [hfa] at herr; simp [isErr] at herr
      | error e =>
        simp only [retryGo, hfa]
        have hpre2 : ∀ i, i < mm + 1 → isErr (f (a + 1 + i)) = true := by
          intro i hi
          have h2 := hpre (i + 1) (by omega)
          have h3 : a + (i + 1) = a + 1 + i := by omega
          rwa [h3] at h2
        rw [ih (a + 1) (by omega) hpre2]
        have h4 : a + 1 + (mm + 1 - 1) = a + (mm + 1 + 1 - 1) := by omega
        rw [h4]
        simp

/-- Retry loop with a positive budget always terminates with a value or a
surfaced error, never silently. -/
theorem retryGo_isSome {α : Type} (f : Nat → Except String α) :
    ∀ (rem a : Nat), 1 ≤ rem → (retryGo f a rem).result.isSome = true := by
  intro rem
  induction rem with
  | zero => intro a h; omega
  | succ m ih =>
    intro a _
    cases m with
    | zero => cases hfa : f a <;> simp [retryGo, hfa]
    | succ mm =>
      cases hfa : f a with
      | ok v => simp [retryGo, hfa]
      | error e =>
        simp only [retryGo, hfa]
        exact ih (a + 1) (by omega)

/-- The numeric check counts exactly the nulls when a column holds only
numbers and nulls: every null coerces to NaN and every number does not. -/
theorem nonNumericCount_of_numOrNull (df : DataFrame) (col : String)
    (hvals : (df.colVals col).all isNumOrNull = true) :
    nonNumericCount df col = (df.colVals col).countP (fun v => v == Value.null) := by
  unfold nonNumericCount
  rw [List.countP_eq_length_filter]
  congr 1
  apply List.filter_congr
  intro v hv
  have hvn : isNumOrNull v = true := by
    rw [List.all_eq_true] at hvals
    exact hvals v hv
  cases v with
  | num n => simp [coerceNum]
  | null => simp [coerceNum]
  | str s => simp [isNumOrNull] at hvn

/-- C1, counterexample: a batch whose quality report carries one
error-level message (a negative quantity) is nevertheless staged in full by
stage_data: two insert operations are sent and the store row count for the
target grows by two, refuting the zero-insert hard gate. -/
theorem claim1_counterexample :
    (validate_data_quality exRules1 exDF1 "raw_daily").errors.length = 1 ∧
    (insertedRows (stage_data true 1000 (fun _ _ => false) [("raw_daily", exDF1)]).1).length = 2 ∧
    committedCount (stage_data true 1000 (fun _ _ => false) [("raw_daily", exDF1)]).1 = 2 := by
  decide

/-- C1, amended: stage_data consults no quality report.  For every batch
with a recognized source name, a positive commit interval and no row-level
failure, staging sends every row of the batch to the store and commits
them all, even when the quality report for that batch contains error-level
messages; the error gate claimed by the specification does not exist in
the loader. -/
theorem claim1_theorem (rules : List (String × RuleSet)) (name t : String)
    (df : DataFrame) (cfgK : Nat)
    (ht : tableFor name = some t) (hK : 1 ≤ cfgK)
    (herr : (validate_data_quality rules df name).errors ≠ []) :
    insertedRows (stage_data true cfgK (fun _ _ => false) [(name, df)]).1 = df.rows ∧
    committedCount (stage_data true cfgK (fun _ _ => false) [(name, df)]).1 = df.rows.length ∧
    (stage_data true cfgK (fun _ _ => false) [(name, df)]).2 = Except.ok () := by
  rw [stage_single_noFail cfgK name t df ht hK]
  exact ⟨execute_batch_inserted cfgK cfgK df.rows hK,
    execute_batch_committed cfgK cfgK df.rows hK, rfl⟩

/-- C1, witness: the amended theorem applied to the concrete errored batch. -/
theorem claim1_witness :
    insertedRows (stage_data true 1000 (fun _ _ => false) [("raw_daily", exDF1)]).1 = exDF1.rows ∧
    committedCount (stage_data true 1000 (fun _ _ => false) [("raw_daily", exDF1)]).1 =
      exDF1.rows.length ∧
    (stage_data true 1000 (fun _ _ => false) [("raw_daily", exDF1)]).2 = Except.ok () :=
  claim1_theorem exRules1 "raw_daily" "STG_RAW_DAILY" exDF1 1000 rfl (by omega) (by decide)

/-- C2, counterexample: one row with interval one.  ceil(1/1) = 1, but the
connection sees three commit operations: the interval commit at row one,
the unconditional final commit, and the scoped-session commit on clean
exit of the with-block. -/
theorem claim2_counterexample :
    commitCount (execute_batch true 1000 1 noFailF [[Value.num 5]]).1 = 3 ∧
    ¬ commitCount (execute_batch true 1000 1 noFailF [[Value.num 5]]).1 = (1 + 1 - 1) / 1 := by
  decide

/-- C2, amended: for a failure-free batch of size N and interval K, the
loop issues floor(N / K) interval commits plus one unconditional final
commit, and the enclosing scoped session issues one more on clean exit, so
the connection sees N / K + 2 commit operations, not ceil(N / K). -/
theorem claim2_theorem (cfgK K : Nat) (data : List (List Value)) (hK : 1 ≤ K) :
    commitCount (execute_batch true cfgK K noFailF data).1 = data.length / K + 2 := by
  rw [execute_batch_noFail cfgK K data hK]
  have h := batchLoop_commits K data 1 0
  rw [intervalCommits_div K hK data.length] at h
  simp only [commitCount] at h
  simp [commitCount, List.countP_cons, List.countP_append, h]

/-- C2, witness: the amended commit count evaluated on a two-row batch with
interval two: 2 / 2 + 2 = 3 commits. -/
theorem claim2_witness :
    commitCount (execute_batch true 1000 2 noFailF exDF1.rows).1 = exDF1.rows.length / 2 + 2 :=
  claim2_theorem 1000 2 exDF1.rows (by omega)

/-- C3: a batch whose quality report has zero errors and whose load hits no
row-level failure gets exactly one parameterized insert per row, in the
original row order (the sent rows ARE the batch), the call returns the full
row count, and that count equals the rows both inserted and covered by a
commit in the store. -/
theorem claim3_theorem (rules : List (String × RuleSet)) (name : String)
    (df : DataFrame) (cfgK K : Nat)
    (herr : (validate_data_quality rules df name).errors = [])
    (hK : 1 ≤ K) :
    insertedRows (execute_batch true cfgK K noFailF df.rows).1 = df.rows ∧
    (execute_batch true cfgK K noFailF df.rows).2 = Except.ok df.rows.length ∧
    committedCount (execute_batch true cfgK K noFailF df.rows).1 = df.rows.length := by
  refine ⟨execute_batch_inserted cfgK K df.rows hK, ?_,
    execute_batch_committed cfgK K df.rows hK⟩
  rw [execute_batch_noFail cfgK K df.rows hK]

/-- C3, witness: the theorem applied to a concrete two-row batch with an
empty rule table (its report has zero errors). -/
theorem claim3_witness :
    insertedRows (execute_batch true 1000 1000 noFailF exDF1.rows).1 = exDF1.rows ∧
    (execute_batch true 1000 1000 noFailF exDF1.rows).2 = Except.ok exDF1.rows.length ∧
    committedCount (execute_batch true 1000 1000 noFailF exDF1.rows).1 = exDF1.rows.length :=
  claim3_theorem [] "raw_daily" exDF1 1000 1000 rfl (by omega)

/-- C4: for execute_query and execute_dml, k transient failures inside the
retry budget followed by a success return exactly what a first-attempt
success returns, after k fixed inter-attempt delays; failing every allowed
attempt surfaces the final attempt outcome unwrapped after budget-minus-one
delays. -/
theorem claim4_theorem (f fb : Nat → Except String (List (List Value)))
    (g gb : Nat → Except String Int) (R : Int) (k : Nat)
    (r : List (List Value)) (m : Int)
    (hk : k < R.toNat)
    (hf : ∀ i, i < k → isErr (f i) = true) (hfk : f k = Except.ok r)
    (hg : ∀ i, i < k → isErr (g i) = true) (hgk : g k = Except.ok m)
    (hfb : ∀ i, i < R.toNat → isErr (fb i) = true)
    (hgb : ∀ i, i < R.toNat → isErr (gb i) = true) :
    execute_query f R = ⟨some (Except.ok r), k, k + 1⟩ ∧
    (execute_query f R).result = (execute_query (fun _ => Except.ok r) R).result ∧
    execute_dml g R = ⟨some (Except.ok m), k, k + 1⟩ ∧
    execute_query fb R = ⟨some (fb (R.toNat - 1)), R.toNat - 1, R.toNat⟩ ∧
    execute_dml gb R = ⟨some (gb (R.toNat - 1)), R.toNat - 1, R.toNat⟩ := by
  have h1 : 1 ≤ R.toNat := by omega
  have hq : retryGo f 0 R.toNat = ⟨some (Except.ok r), k, k + 1⟩ :=
    retryGo_success f r k R.toNat 0 hk
      (fun i hi => by have h2 := hf i hi; simpa using h2) (by simpa using hfk)
  have hq2 : retryGo g 0 R.toNat = ⟨some (Except.ok m), k, k + 1⟩ :=
    retryGo_success g m k R.toNat 0 hk
      (fun i hi => by have h2 := hg i hi; simpa using h2) (by simpa using hgk)
  have hq1 : retryGo (fun _ => Except.ok r) 0 R.toNat = ⟨some (Except.ok r), 0, 0 + 1⟩ :=
    retryGo_success (fun _ => Except.ok r) r 0 R.toNat 0 (by omega)
      (fun i hi => absurd hi (by omega)) rfl
  have hqb : retryGo fb 0 R.toNat =
      ⟨some (fb (0 + (R.toNat - 1))), R.toNat - 1, R.toNat⟩ :=
    retryGo_allfail fb R.toNat 0 h1 (fun i hi => by have h2 := hfb i hi; simpa using h2)
  have hqb2 : retryGo gb 0 R.toNat =
      ⟨some (gb (0 + (R.toNat - 1))), R.toNat - 1, R.toNat⟩ :=
    retryGo_allfail gb R.toNat 0 h1 (fun i hi => by have h2 := hgb i hi; simpa using h2)
  refine ⟨hq, ?_, hq2, ?_, ?_⟩
  · unfold execute_query
    rw [hq, hq1]
  · unfold execute_query
    simpa using hqb
  · unfold execute_dml
    simpa using hqb2

/-- C4, witness: concrete oracles, budget three.  wQueryOk and wDmlOk fail
once then succeed; wQueryBad and wDmlBad always fail. -/
theorem claim4_witness :
    execute_query wQueryOk 3 = ⟨some (Except.ok [[Value.num 7]]), 1, 2⟩ ∧
    (execute_query wQueryOk 3).result =
      (execute_query (fun _ => Except.ok [[Value.num 7]]) 3).result ∧
    execute_dml wDmlOk 3 = ⟨some (Except.ok 4), 1, 2⟩ ∧
    execute_query wQueryBad 3 = ⟨some (wQueryBad 2), 2, 3⟩ ∧
    execute_dml wDmlBad 3 = ⟨some (wDmlBad 2), 2, 3⟩ :=
  claim4_theorem wQueryOk wQueryBad wDmlOk wDmlBad 3 1 [[Value.num 7]] 4
    (by decide)
    (fun i hi => by
      have hz : i = 0 := by omega
      rw [hz]; rfl)
    rfl
    (fun i hi => by
      have hz : i = 0 := by omega
      rw [hz]; rfl)
    rfl
    (fun i _ => rfl)
    (fun i _ => rfl)

/-- C5, counterexample: rule set requires columns A and B, the batch has A
and C, so B is missing, yet validate_data_quality reports no error and no
warning at all; the claimed single error naming B is absent from the
report. -/
theorem claim5_counterexample :
    missingColumns ["A", "B"] exDF5.columns = ["B"] ∧
    (validate_data_quality exRules5 exDF5 "raw_daily").errors = [] ∧
    (validate_data_quality exRules5 exDF5 "raw_daily").warnings = [] := by
  decide

/-- C5, amended: the required-column check lives in extraction, not in
validation.  When the set difference required minus present is nonempty,
extract_raw_daily raises a single error carrying exactly the missing
columns (so the batch never reaches staging), and a column is in that set
difference exactly when it is required and absent from the batch. -/
theorem claim5_theorem (required : List String) (df : DataFrame) (c : String)
    (hmiss : missingColumns required df.columns ≠ []) :
    extractRequiredCheck required df = Except.error (missingColumns required df.columns) ∧
    (c ∈ missingColumns required df.columns ↔ c ∈ required ∧ c ∉ df.columns) := by
  constructor
  · unfold extractRequiredCheck
    rw [if_neg hmiss]
  · unfold missingColumns
    rw [List.mem_filter]
    simp

/-- C5, witness: the amended theorem on the concrete batch missing B. -/
theorem claim5_witness :
    extractRequiredCheck ["A", "B"] exDF5 =
      Except.error (missingColumns ["A", "B"] exDF5.columns) ∧
    ("B" ∈ missingColumns ["A", "B"] exDF5.columns ↔
      "B" ∈ ["A", "B"] ∧ "B" ∉ exDF5.columns) :=
  claim5_theorem ["A", "B"] exDF5 "B" (by decide)

/-- C6, counterexample: a declared numeric column holding only a number and
a null produces the warning counting the null as non-numeric, because the
checks mask is built from coerced NaN and original nulls stay NaN. -/
theorem claim6_counterexample :
    ((exDF6.colVals "price").all isNumOrNull) = true ∧
    (validate_data_quality exRules6 exDF6 "raw_daily").warnings =
      ["price: 1 non-numeric values"] := by
  decide

/-- C6, amended: missing values DO count as coercion failures.  For a
declared numeric column present in the batch and holding only numbers and
nulls, with k greater than zero nulls, the report contains the warning for
that column counting exactly the k nulls. -/
theorem claim6_theorem (rules : List (String × RuleSet)) (rs : RuleSet)
    (df : DataFrame) (src col : String) (k : Nat)
    (hlook : List.lookup src rules = some rs)
    (hcol : col ∈ rs.numeric_columns)
    (hpresent : col ∈ df.columns)
    (hvals : (df.colVals col).all isNumOrNull = true)
    (hk : (df.colVals col).countP (fun v => v == Value.null) = k)
    (hk1 : 1 ≤ k) :
    (col ++ ": " ++ toString k ++ " non-numeric values") ∈
      (validate_data_quality rules df src).warnings := by
  have hcount : nonNumericCount df col = k := by
    rw [nonNumericCount_of_numOrNull df col hvals, hk]
  have hmsg : numericMsg df col =
      some (col ++ ": " ++ toString k ++ " non-numeric values") := by
    unfold numericMsg
    rw [if_pos hpresent, hcount, if_pos (by omega)]
  simp only [validate_data_quality, hlook]
  simp only [applyRules]
  exact List.mem_append_left _ (List.mem_filterMap.mpr ⟨col, hcol, hmsg⟩)

/-- C6, witness: the amended theorem on the concrete number-and-null
column. -/
theorem claim6_witness :
    ("price" ++ ": " ++ toString 1 ++ " non-numeric values") ∈
      (validate_data_quality exRules6 exDF6 "raw_daily").warnings :=
  claim6_theorem exRules6 { numeric_columns := ["price"] } exDF6 "raw_daily" "price" 1
    rfl (by decide) (by decide) (by decide) (by decide) (by omega)

/-- C7: the scoped session over one unit of work.  With a live acquisition,
a clean unit of work yields acquire, the work events, a commit and then the
release, returning the value; a failing unit of work yields acquire, the
work events, a rollback and then the release, propagating the same error;
in both cases release is the final connection operation; when acquisition
itself fails, no session operation happens at all (nothing was acquired,
nothing to release). -/
theorem claim7_theorem {α : Type} (evs : List DbEvent) (a : α) (e msg : String) :
    get_connection_run (Except.ok ()) (evs, Except.ok a) =
      (DbEvent.acquire :: evs ++ [DbEvent.commit, DbEvent.release], Except.ok a) ∧
    get_connection_run (Except.ok ()) (evs, Except.error e) =
      (DbEvent.acquire :: evs ++ [DbEvent.rollback, DbEvent.release],
        (Except.error e : Except String α)) ∧
    (get_connection_run (Except.ok ()) (evs, Except.ok a)).1.getLast? = some DbEvent.release ∧
    (get_connection_run (Except.ok ()) (evs, (Except.error e : Except String α))).1.getLast? =
      some DbEvent.release ∧
    get_connection_run (Except.error msg) (evs, Except.ok a) = ([], Except.error msg) := by
  refine ⟨rfl, rfl, ?_, ?_, rfl⟩
  · exact getLast_wrap evs DbEvent.commit
  · exact getLast_wrap evs DbEvent.rollback

/-- C8, counterexample: with the backend down, pool creation makes exactly
one attempt (no retry loop exists around it), returns failure, and
get_connection_pool nevertheless hands the caller the pool object with no
session pool inside; staging with it proceeds and dies at acquisition. -/
theorem claim8_counterexample :
    create_pool (Except.error "db down") = ⟨none, false, 1⟩ ∧
    (get_connection_pool none (Except.error "db down")).pool = none ∧
    (stage_with_global_pool none (Except.error "db down") 1000 (fun _ _ => false)
      [("raw_daily", exDF1)]).2 = Except.error BatchError.acquireFailed :=
  ⟨rfl, rfl, rfl⟩

/-- C8, amended: create_pool attempts pool creation exactly once and
returns False on failure instead of failing fatally; get_connection_pool
discards that boolean and returns the instance, so the pipeline proceeds
into staging with a dead pool and only fails when execute_batch first
tries to acquire a session, with zero rows reaching the store. -/
theorem claim8_theorem (err name t : String) (df : DataFrame)
    (rest : List (String × DataFrame)) (cfgK : Nat) (fa : String → Nat → Bool)
    (ht : tableFor name = some t) :
    (create_pool (Except.error err)).attempts = 1 ∧
    (create_pool (Except.error err)).success = false ∧
    (get_connection_pool none (Except.error err)).pool = none ∧
    stage_with_global_pool none (Except.error err) cfgK fa ((name, df) :: rest) =
      ([], Except.error BatchError.acquireFailed) := by
  refine ⟨rfl, rfl, rfl, ?_⟩
  show stage_data false cfgK fa ((name, df) :: rest) =
    ([], Except.error BatchError.acquireFailed)
  simp only [stage_data, ht]
  rfl

/-- C8, witness: the amended theorem on a concrete recognized source. -/
theorem claim8_witness :
    (create_pool (Except.error "db down")).attempts = 1 ∧
    (create_pool (Except.error "db down")).success = false ∧
    (get_connection_pool none (Except.error "db down")).pool = none ∧
    stage_with_global_pool none (Except.error "db down") 1000 (fun _ _ => false)
      [("raw_daily", exDF1)] = ([], Except.error BatchError.acquireFailed) :=
  claim8_theorem "db down" "raw_daily" "STG_RAW_DAILY" exDF1 [] 1000 (fun _ _ => false) rfl

/-- C9: every per-column check runs only over rule columns present in the
batch: restricting the rule set to the columns of the frame changes
neither the check output nor the full validation report, so an absent rule
column contributes no warning and no error of any kind. -/
theorem claim9_theorem (df : DataFrame) (rs : RuleSet) (src : String) :
    applyRules df (RuleSet.restrict rs df.columns) = applyRules df rs ∧
    validate_data_quality [(src, RuleSet.restrict rs df.columns)] df src =
      validate_data_quality [(src, rs)] df src := by
  have hnum : (rs.numeric_columns.filter (fun c => decide (c ∈ df.columns))).filterMap
      (numericMsg df) = rs.numeric_columns.filterMap (numericMsg df) := by
    apply filterMap_filter_none
    intro x hx
    simp only [decide_eq_false_iff_not] at hx
    simp [numericMsg, hx]
  have hpos : (rs.positive_columns.filter (fun c => decide (c ∈ df.columns))).filterMap
      (positiveMsg df) = rs.positive_columns.filterMap (positiveMsg df) := by
    apply filterMap_filter_none
    intro x hx
    simp only [decide_eq_false_iff_not] at hx
    simp [positiveMsg, hx]
  have hrange : (rs.range_checks.filter (fun rc => decide (rc.1 ∈ df.columns))).filterMap
      (rangeMsg df) = rs.range_checks.filterMap (rangeMsg df) := by
    apply filterMap_filter_none
    intro x hx
    simp only [decide_eq_false_iff_not] at hx
    simp [rangeMsg, hx]
  have hcat : (rs.categorical_checks.filter (fun cc => decide (cc.1 ∈ df.columns))).filterMap
      (categoricalMsg df) = rs.categorical_checks.filterMap (categoricalMsg df) := by
    apply filterMap_filter_none
    intro x hx
    simp only [decide_eq_false_iff_not] at hx
    simp [categoricalMsg, hx]
  have happ : applyRules df (RuleSet.restrict rs df.columns) = applyRules df rs := by
    simp only [applyRules, RuleSet.restrict]
    rw [hnum, hpos, hrange, hcat]
  refine ⟨happ, ?_⟩
  simp only [validate_data_quality, List.lookup, beq_self_eq_true]
  rw [happ]

/-- C10: with a positive retry budget both retried calls always terminate
with some outcome (a value or the surfaced final error); with a zero or
negative budget the loop body never runs: no attempt is made and None is
returned. -/
theorem claim10_theorem (f : Nat → Except String (List (List Value)))
    (g : Nat → Except String Int) (R : Int) :
    (1 ≤ R → (execute_query f R).result.isSome = true ∧
      (execute_dml g R).result.isSome = true) ∧
    (R ≤ 0 → execute_query f R = ⟨none, 0, 0⟩ ∧ execute_dml g R = ⟨none, 0, 0⟩ ∧
      (execute_query f R).attempts = 0) := by
  constructor
  · intro hR
    have h1 : 1 ≤ R.toNat := by omega
    exact ⟨retryGo_isSome f R.toNat 0 h1, retryGo_isSome g R.toNat 0 h1⟩
  · intro hR
    have h0 : R.toNat = 0 := by omega
    unfold execute_query execute_dml
    rw [h0]
    exact ⟨rfl, rfl, rfl⟩

/-- C10, witness: budget one always produces an outcome; budget minus one
performs no attempt and returns None. -/
theorem claim10_witness :
    ((execute_query wQueryFine 1).result.isSome = true ∧
      (execute_dml wDmlFine 1).result.isSome = true) ∧
    (execute_query wQueryFine (-1) = ⟨none, 0, 0⟩ ∧
      execute_dml wDmlFine (-1) = ⟨none, 0, 0⟩ ∧
      (execute_query wQueryFine (-1)).attempts = 0) :=
  ⟨(claim10_theorem wQueryFine wDmlFine 1).1 (by decide),
   (claim10_theorem wQueryFine wDmlFine (-1)).2 (by decide)⟩

end InkWave
